import Mathlib

/-!
Shallow embedding of `src/modules/affile/affile-source.c` (syslog-ng file
source driver): multi-line framing validation, follow-frequency policy,
opener-strategy selection, persist-name derivation and the driver
init/deinit/free lifecycle, together with proofs of the specification
claims about them.

The code is modelled for a Linux build (the `#ifdef __linux__` branches of
`_is_linux_proc_kmsg` / `_is_linux_dev_kmsg` are active).  External
collaborators (the generic source driver, the file reader, the pipe graph)
live outside `src/`; their observable results are passed in explicitly and
the few facts needed about them are modelled from the spec, each marked in
its doc comment.
-/

namespace AFFile

/-- Multi-line framing modes (`MultiLineMode`); the source file references
`MLM_PREFIX_GARBAGE` and `MLM_PREFIX_SUFFIX`, the other members of the
closed set are represented by `mlmNone` and `mlmIndented`. -/
inductive MultiLineMode where
  | mlmNone
  | mlmIndented
  | mlmPrefixGarbage
  | mlmPrefixSuffix
deriving DecidableEq

/-- The multi-line part of `LogProtoMultiLineServerOptions`: the mode plus
the optional compiled `prefix` and `garbage` patterns (a `none` pattern is
a NULL pointer in the C code). -/
structure MultiLineOptions where
  mode : MultiLineMode
  prefixPattern : Option String
  garbage : Option String
deriving DecidableEq

/-- Result of `stat(2)` on a path: whether the entry is a regular file
(`S_ISREG`). -/
structure StatResult where
  isReg : Bool
deriving DecidableEq

/-- The filesystem as seen by `stat`: `none` means the call fails
(e.g. the file is absent). -/
def FileSystem : Type := String → Option StatResult

/-- `_is_linux_proc_kmsg`: Linux build, string comparison with
"/proc/kmsg". -/
def _is_linux_proc_kmsg (filename : String) : Bool :=
  filename = "/proc/kmsg"

/-- `_is_linux_dev_kmsg`: Linux build, string comparison with
"/dev/kmsg". -/
def _is_linux_dev_kmsg (filename : String) : Bool :=
  filename = "/dev/kmsg"

/-- `_is_device_node`: stat the path; if stat fails, return FALSE,
otherwise report whether the entry is not a regular file. -/
def _is_device_node (fs : FileSystem) (filename : String) : Bool :=
  match fs filename with
  | none => false
  | some st => !st.isReg

/-- `_are_multi_line_settings_invalid`: the mode is neither prefix-garbage
nor prefix-suffix while a prefix or garbage pattern is set. -/
def _are_multi_line_settings_invalid (o : MultiLineOptions) : Bool :=
  let is_garbage_mode := o.mode = MultiLineMode.mlmPrefixGarbage
  let is_suffix_mode := o.mode = MultiLineMode.mlmPrefixSuffix
  (!is_garbage_mode && !is_suffix_mode) && (o.prefixPattern.isSome || o.garbage.isSome)

/-- Opener strategies, one per factory function used by the source:
`file_opener_for_regular_source_files_new`, `file_opener_for_prockmsg_new`,
`file_opener_for_devkmsg_new`. -/
inductive FileOpener where
  | regularSourceFiles
  | prockmsg
  | devkmsg
deriving DecidableEq

/-- The fields of `FileReaderOptions` this driver reads or writes:
the multi-line protocol options, `follow_freq` and `restore_state`. -/
structure FileReaderOptions where
  multiLine : MultiLineOptions
  follow_freq : Int
  restore_state : Bool
deriving DecidableEq

/-- The field of `FileOpenerOptions` this driver writes:
`needs_privileges`. -/
structure FileOpenerOptions where
  needs_privileges : Bool
deriving DecidableEq

/-- Modelled from the spec: `file_reader_options_defaults` is not under
`src/`; the spec says `follow-freq` is unset (derived later), multi-line
mode defaults to none with no patterns, and position restoration is off
until resolved. -/
def file_reader_options_defaults : FileReaderOptions :=
  { multiLine := { mode := MultiLineMode.mlmNone, prefixPattern := none, garbage := none }
    follow_freq := 0
    restore_state := false }

/-- Modelled from the spec: `file_opener_options_defaults` is not under
`src/`; the spec says `needs-privileges` is an implicit flag set internally
only for the legacy kernel-ring-buffer path, so it defaults to false. -/
def file_opener_options_defaults : FileOpenerOptions :=
  { needs_privileges := false }

/-- The global configuration: its config-version marker, compared by
`cfg_is_config_version_older`. -/
structure GlobalConfig where
  userVersion : Nat
deriving DecidableEq

/-- `cfg_is_config_version_older cfg v`: the configuration declares
compatibility with a version older than `v`. -/
def cfg_is_config_version_older (cfg : GlobalConfig) (v : Nat) : Bool :=
  cfg.userVersion < v

/-- The external `FileReader` object as constructed by `file_reader_new`:
its identity is the path, the resolved reader options and the opener it
was given, plus a reference count (starting at 1, held by the driver). -/
structure FileReader where
  path : String
  options : FileReaderOptions
  opener : Option FileOpener
  ref_cnt : Nat
deriving DecidableEq

/-- `file_reader_new`: constructs the reader from the path, the resolved
options and the opener; the caller holds the initial reference. -/
def file_reader_new (path : String) (options : FileReaderOptions)
    (opener : Option FileOpener) : FileReader :=
  { path := path, options := options, opener := opener, ref_cnt := 1 }

/-- Modelled from the spec: the reader persist name
(`log_pipe_get_persist_name` on the file reader) is not under `src/`; the
spec says it is derived from the reader's resolved identity, incorporating
the file path and any opener-specific discriminators. -/
def opener_discriminator : Option FileOpener → String
  | none => ""
  | some FileOpener.regularSourceFiles => ""
  | some FileOpener.prockmsg => ",prockmsg"
  | some FileOpener.devkmsg => ",devkmsg"

/-- Modelled from the spec: `log_pipe_get_persist_name` for a file reader
is not under `src/`; a restart-stable key built from the reader's resolved
identity. -/
def log_pipe_get_persist_name (r : FileReader) : String :=
  "affile_sd_curpos(" ++ r.path ++ opener_discriminator r.opener ++ ")"

/-- `AFFileSourceDriver`: the driver's own fields (the generic
`LogSrcDriver` base is an external collaborator). -/
structure AFFileSourceDriver where
  filename : String
  file_reader_options : FileReaderOptions
  file_opener_options : FileOpenerOptions
  file_opener : Option FileOpener
  file_reader : Option FileReader
deriving DecidableEq

/-- `affile_sd_new_instance`: zero-initialized driver with the virtual
methods installed, the path copied and the option defaults applied.
(`stats_level` / `stats_source` assignments concern external stats state
and are not modelled.) -/
def affile_sd_new_instance (filename : String) : AFFileSourceDriver :=
  { filename := filename
    file_reader_options := file_reader_options_defaults
    file_opener_options := file_opener_options_defaults
    file_opener := none
    file_reader := none }

/-- `affile_sd_new`: construct the driver, resolve `follow_freq` from the
config version and the path classification, select the opener strategy by
the ordered first-match rule, and derive `restore_state`. -/
def affile_sd_new (fs : FileSystem) (filename : String) (cfg : GlobalConfig) :
    AFFileSourceDriver :=
  let self := affile_sd_new_instance filename
  let self :=
    if cfg_is_config_version_older cfg 0x0300 then
      { self with file_reader_options :=
          { self.file_reader_options with follow_freq := -1 } }
    else
      if _is_device_node fs filename || _is_linux_proc_kmsg filename then
        { self with file_reader_options :=
            { self.file_reader_options with follow_freq := 0 } }
      else
        { self with file_reader_options :=
            { self.file_reader_options with follow_freq := 1000 } }
  let self :=
    if self.file_reader_options.follow_freq > 0 then
      { self with file_opener := some FileOpener.regularSourceFiles }
    else if _is_linux_proc_kmsg self.filename then
      { self with
          file_opener_options :=
            { self.file_opener_options with needs_privileges := true }
          file_opener := some FileOpener.prockmsg }
    else if _is_linux_dev_kmsg self.filename then
      { self with file_opener := some FileOpener.devkmsg }
    else
      { self with file_opener := some FileOpener.regularSourceFiles }
  { self with file_reader_options :=
      { self.file_reader_options with
          restore_state := self.file_reader_options.follow_freq > 0 } }

/-- Modelled from the spec: `file_reader_options_init` is not under `src/`;
it resolves the reader options against the global configuration.  The
spec's invariant (`restoreState == (followFreq > 0)` for every resolved
configuration) entails that it leaves the already-resolved follow/restore
fields and the user-chosen multi-line options unchanged. -/
def file_reader_options_init (o : FileReaderOptions) (_cfg : GlobalConfig) :
    FileReaderOptions := o

/-- Modelled from the spec: `file_opener_options_init` is not under `src/`;
resolves opener options against the global configuration, leaving the
internally-set `needs_privileges` flag unchanged. -/
def file_opener_options_init (o : FileOpenerOptions) (_cfg : GlobalConfig) :
    FileOpenerOptions := o

/-- Observable results of the external collaborators invoked during the
lifecycle: the generic source-driver init/deinit methods and the reader's
own `log_pipe_init` / `log_pipe_deinit`. -/
structure Externals where
  src_driver_init_ok : Bool
  reader_init_ok : Bool
  reader_deinit_ok : Bool
  src_driver_deinit_ok : Bool
deriving DecidableEq

/-- The driver together with its pipe-graph status: whether the reader has
been appended as the driver's downstream pipe (`log_pipe_append`) and
whether the reader is currently initialized. -/
structure DriverState where
  driver : AFFileSourceDriver
  reader_appended : Bool
  reader_inited : Bool
deriving DecidableEq

/-- `affile_sd_init`: run the generic source-driver init; resolve reader
and opener options; construct the reader (assigned to the driver before
the multi-line validity check); on invalid multi-line settings log an
error and fail; otherwise append the reader to the pipe graph and return
the result of the reader's own init. -/
def affile_sd_init (cfg : GlobalConfig) (ext : Externals) (s : DriverState) :
    Bool × DriverState :=
  if !ext.src_driver_init_ok then
    (false, s)
  else
    let reader_options := file_reader_options_init s.driver.file_reader_options cfg
    let opener_options := file_opener_options_init s.driver.file_opener_options cfg
    let reader := file_reader_new s.driver.filename reader_options s.driver.file_opener
    let s := { s with driver :=
        { s.driver with
            file_reader_options := reader_options
            file_opener_options := opener_options
            file_reader := some reader } }
    if _are_multi_line_settings_invalid s.driver.file_reader_options.multiLine then
      (false, s)
    else
      let s := { s with reader_appended := true }
      (ext.reader_init_ok, { s with reader_inited := ext.reader_init_ok })

/-- `affile_sd_deinit`: call `log_pipe_deinit` on the reader (its boolean
result is discarded by the source), then the generic source-driver deinit;
return FALSE iff the generic step fails. -/
def affile_sd_deinit (ext : Externals) (s : DriverState) : Bool × DriverState :=
  let _discarded_reader_deinit_result := ext.reader_deinit_ok
  let s := { s with reader_inited := false }
  if !ext.src_driver_deinit_ok then
    (false, s)
  else
    (true, s)

/-- `affile_sd_format_persist_name`: delegate to the constructed reader's
persist name; `none` models the NULL dereference that would occur before
the reader exists. -/
def affile_sd_format_persist_name (self : AFFileSourceDriver) : Option String :=
  self.file_reader.map log_pipe_get_persist_name

/-- Modelled from the spec: `log_pipe_unref` is not under `src/`; reference
decrement that destroys the pipe only when no holder remains, and is a
no-op on a NULL pipe. -/
def log_pipe_unref : Option FileReader → Option FileReader
  | none => none
  | some r => if r.ref_cnt ≤ 1 then none else some { r with ref_cnt := r.ref_cnt - 1 }

/-- Number of references currently held on an optional reader. -/
def readerRefCount : Option FileReader → Nat
  | none => 0
  | some r => r.ref_cnt

/-- What `affile_sd_free` releases: the opener strategy, the reader
reference (the reader that remains after the decrement, if any), the path
buffer, the option structures, and the generic driver state. -/
structure FreedResources where
  opener_released : Bool
  reader_after_unref : Option FileReader
  filename_released : Bool
  reader_options_deinited : Bool
  opener_options_deinited : Bool
  src_driver_freed : Bool
deriving DecidableEq

/-- `affile_sd_free`: free the opener, unref the reader (a NULL reader,
i.e. a never-initialized driver, is a safe no-op), free the filename
string, deinit both option structures, free the generic driver. -/
def affile_sd_free (s : DriverState) : FreedResources :=
  { opener_released := true
    reader_after_unref := log_pipe_unref s.driver.file_reader
    filename_released := true
    reader_options_deinited := true
    opener_options_deinited := true
    src_driver_freed := true }

/-! ## Concrete fixtures used by counterexamples and witnesses -/

/-- A valid multi-line configuration: prefix-garbage mode with both
patterns set. -/
def validML : MultiLineOptions :=
  { mode := MultiLineMode.mlmPrefixGarbage, prefixPattern := some "^=",
    garbage := some "^--" }

/-- An invalid multi-line configuration: mode none with a prefix set. -/
def invalidML : MultiLineOptions :=
  { mode := MultiLineMode.mlmNone, prefixPattern := some "^=", garbage := none }

/-- A driver for an ordinary log file, as resolved by the constructor for
a regular path under non-legacy compatibility, with the given multi-line
options applied by the configuration parser. -/
def sampleDriver (ml : MultiLineOptions) : AFFileSourceDriver :=
  { filename := "/var/log/app.log"
    file_reader_options := { multiLine := ml, follow_freq := 1000, restore_state := true }
    file_opener_options := { needs_privileges := false }
    file_opener := some FileOpener.regularSourceFiles
    file_reader := none }

/-- A freshly-constructed (uninitialized) driver state. -/
def freshState (ml : MultiLineOptions) : DriverState :=
  { driver := sampleDriver ml, reader_appended := false, reader_inited := false }

/-- All external collaborators succeed. -/
def extAllOk : Externals :=
  { src_driver_init_ok := true, reader_init_ok := true,
    reader_deinit_ok := true, src_driver_deinit_ok := true }

/-- The reader's own init fails; everything else succeeds. -/
def extReaderInitFails : Externals :=
  { src_driver_init_ok := true, reader_init_ok := false,
    reader_deinit_ok := true, src_driver_deinit_ok := true }

/-- The reader's own deinit fails; everything else succeeds. -/
def extReaderDeinitFails : Externals :=
  { src_driver_init_ok := true, reader_init_ok := true,
    reader_deinit_ok := false, src_driver_deinit_ok := true }

/-- A configuration exactly at the 3.0 threshold (not legacy). -/
def cfg300 : GlobalConfig := { userVersion := 0x0300 }

/-- A filesystem on which every stat call fails. -/
def fsAbsent : FileSystem := fun _ => none

/-! ## Claims -/

/-- C7: the framing validator reports invalid exactly when the mode is
neither prefix-garbage nor prefix-suffix and at least one of the prefix or
garbage patterns is set; in particular, mode none with a prefix set is
rejected and mode prefix-suffix with a prefix set is accepted. -/
theorem multi_line_settings_invalid_iff (o : MultiLineOptions) :
    (_are_multi_line_settings_invalid o = true ↔
      (o.mode ≠ MultiLineMode.mlmPrefixGarbage ∧ o.mode ≠ MultiLineMode.mlmPrefixSuffix ∧
        (o.prefixPattern ≠ none ∨ o.garbage ≠ none))) ∧
    _are_multi_line_settings_invalid
      { mode := MultiLineMode.mlmNone, prefixPattern := some "^=", garbage := none } = true ∧
    _are_multi_line_settings_invalid
      { mode := MultiLineMode.mlmPrefixSuffix, prefixPattern := some "^=",
        garbage := none } = false := by
  refine ⟨?_, by decide, by decide⟩
  simp [_are_multi_line_settings_invalid, Option.isSome_iff_ne_none, and_assoc]

/-- C3: the constructor resolves `follow_freq` to -1 under legacy
compatibility (config version older than 0x0300) regardless of path
classification; otherwise to 0 for special device nodes and /proc/kmsg,
and to 1000 for every other path. -/
theorem follow_freq_policy (fs : FileSystem) (filename : String) (cfg : GlobalConfig) :
    (affile_sd_new fs filename cfg).file_reader_options.follow_freq =
      (if cfg_is_config_version_older cfg 0x0300 then -1
       else if _is_device_node fs filename || _is_linux_proc_kmsg filename then 0
       else 1000) := by
  cases hb : cfg_is_config_version_older cfg 0x0300 <;>
    cases hd : (_is_device_node fs filename || _is_linux_proc_kmsg filename) <;>
      cases hp : _is_linux_proc_kmsg filename <;>
        cases hk : _is_linux_dev_kmsg filename <;>
          simp_all [affile_sd_new, affile_sd_new_instance]

/-- C4: the constructor selects the opener by the ordered first-match
rule: polling (`follow_freq > 0`) always yields the regular-file opener;
otherwise /proc/kmsg yields the privileged kmsg opener with
`needs_privileges` set, /dev/kmsg the modern kmsg opener, and anything
else the regular-file opener. -/
theorem opener_selection (fs : FileSystem) (filename : String) (cfg : GlobalConfig) :
    (affile_sd_new fs filename cfg).file_opener =
      some (if (affile_sd_new fs filename cfg).file_reader_options.follow_freq > 0 then
              FileOpener.regularSourceFiles
            else if _is_linux_proc_kmsg filename then FileOpener.prockmsg
            else if _is_linux_dev_kmsg filename then FileOpener.devkmsg
            else FileOpener.regularSourceFiles) ∧
    (affile_sd_new fs filename cfg).file_opener_options.needs_privileges =
      (decide (¬ (affile_sd_new fs filename cfg).file_reader_options.follow_freq > 0) &&
        _is_linux_proc_kmsg filename) := by
  cases hb : cfg_is_config_version_older cfg 0x0300 <;>
    cases hd : (_is_device_node fs filename || _is_linux_proc_kmsg filename) <;>
      cases hp : _is_linux_proc_kmsg filename <;>
        cases hk : _is_linux_dev_kmsg filename <;>
          simp_all [affile_sd_new, affile_sd_new_instance, file_opener_options_defaults]

/-- C5: the constructor establishes `restore_state = (follow_freq > 0)`,
and neither Initialize nor Deinitialize changes the resolved reader
options, so the invariant persists across the lifecycle. -/
theorem restore_state_invariant (fs : FileSystem) (filename : String)
    (cfg cfg2 : GlobalConfig) (ext ext2 : Externals) (s : DriverState) :
    (affile_sd_new fs filename cfg).file_reader_options.restore_state =
      decide ((affile_sd_new fs filename cfg).file_reader_options.follow_freq > 0) ∧
    (affile_sd_init cfg2 ext s).2.driver.file_reader_options =
      s.driver.file_reader_options ∧
    (affile_sd_deinit ext2 s).2.driver.file_reader_options =
      s.driver.file_reader_options := by
  refine ⟨?_, ?_, ?_⟩
  · cases hb : cfg_is_config_version_older cfg 0x0300 <;>
      cases hd : (_is_device_node fs filename || _is_linux_proc_kmsg filename) <;>
        cases hp : _is_linux_proc_kmsg filename <;>
          cases hk : _is_linux_dev_kmsg filename <;>
            simp_all [affile_sd_new, affile_sd_new_instance]
  · cases hs : ext.src_driver_init_ok <;>
      cases hv : _are_multi_line_settings_invalid s.driver.file_reader_options.multiLine <;>
        simp [affile_sd_init, hs, hv, file_reader_options_init]
  · cases hd : ext2.src_driver_deinit_ok <;> simp [affile_sd_deinit, hd]

/-- C1 counterexample: on an invalid multi-line configuration,
Initialize does fail, but a Reader IS constructed and stored in the
driver before the validity check, contradicting the claim's "no Reader
is constructed". -/
theorem init_invalid_framing_counterexample :
    _are_multi_line_settings_invalid invalidML = true ∧
    (affile_sd_init cfg300 extAllOk (freshState invalidML)).1 = false ∧
    ((affile_sd_init cfg300 extAllOk (freshState invalidML)).2.driver.file_reader).isSome
      = true := by
  decide

/-- C1 amended: on an invalid multi-line configuration (after a
successful generic source-driver init), Initialize fails and no
pipe-graph state is registered — the Reader is neither appended nor
initialized — but the Reader object itself has already been constructed
and stored in the driver. -/
theorem init_invalid_framing (cfg : GlobalConfig) (ext : Externals) (s : DriverState)
    (hsrc : ext.src_driver_init_ok = true)
    (hinv : _are_multi_line_settings_invalid s.driver.file_reader_options.multiLine = true)
    (happ : s.reader_appended = false) (hini : s.reader_inited = false) :
    (affile_sd_init cfg ext s).1 = false ∧
    (affile_sd_init cfg ext s).2.reader_appended = false ∧
    (affile_sd_init cfg ext s).2.reader_inited = false ∧
    ((affile_sd_init cfg ext s).2.driver.file_reader).isSome = true := by
  simp [affile_sd_init, hsrc, hinv, happ, hini, file_reader_options_init]

/-- C1 amended, witnessed at a concrete invalid configuration. -/
theorem init_invalid_framing_witness :
    extAllOk.src_driver_init_ok = true ∧
    _are_multi_line_settings_invalid
      (freshState invalidML).driver.file_reader_options.multiLine = true ∧
    (freshState invalidML).reader_appended = false ∧
    (freshState invalidML).reader_inited = false ∧
    ((affile_sd_init cfg300 extAllOk (freshState invalidML)).1 = false ∧
     (affile_sd_init cfg300 extAllOk (freshState invalidML)).2.reader_appended = false ∧
     (affile_sd_init cfg300 extAllOk (freshState invalidML)).2.reader_inited = false ∧
     ((affile_sd_init cfg300 extAllOk (freshState invalidML)).2.driver.file_reader).isSome
       = true) :=
  ⟨rfl, by decide, rfl, rfl,
    init_invalid_framing cfg300 extAllOk (freshState invalidML) rfl (by decide) rfl rfl⟩

/-- C2 counterexample: when the Reader's own init fails, Initialize does
return failure, but the Reader remains appended as the driver's
downstream pipe, contradicting the claim's "no partial pipe-graph
linkage remains". -/
theorem init_reader_failure_counterexample :
    extReaderInitFails.reader_init_ok = false ∧
    (affile_sd_init cfg300 extReaderInitFails (freshState validML)).1 = false ∧
    (affile_sd_init cfg300 extReaderInitFails (freshState validML)).2.reader_appended
      = true := by
  decide

/-- C2 amended: when the Reader's own init fails (after a successful
generic init and valid framing), Initialize returns failure and the
Reader is left uninitialized, but the Reader remains appended as the
driver's downstream pipe: the append precedes the Reader's init and is
not rolled back on failure. -/
theorem init_reader_failure (cfg : GlobalConfig) (ext : Externals) (s : DriverState)
    (hsrc : ext.src_driver_init_ok = true)
    (hval : _are_multi_line_settings_invalid s.driver.file_reader_options.multiLine = false)
    (hrd : ext.reader_init_ok = false) :
    (affile_sd_init cfg ext s).1 = false ∧
    (affile_sd_init cfg ext s).2.reader_appended = true ∧
    (affile_sd_init cfg ext s).2.reader_inited = false := by
  simp [affile_sd_init, hsrc, hval, hrd, file_reader_options_init]

/-- C2 amended, witnessed at a concrete valid configuration with a
failing reader init. -/
theorem init_reader_failure_witness :
    extReaderInitFails.src_driver_init_ok = true ∧
    _are_multi_line_settings_invalid
      (freshState validML).driver.file_reader_options.multiLine = false ∧
    extReaderInitFails.reader_init_ok = false ∧
    ((affile_sd_init cfg300 extReaderInitFails (freshState validML)).1 = false ∧
     (affile_sd_init cfg300 extReaderInitFails (freshState validML)).2.reader_appended
       = true ∧
     (affile_sd_init cfg300 extReaderInitFails (freshState validML)).2.reader_inited
       = false) :=
  ⟨rfl, by decide, rfl,
    init_reader_failure cfg300 extReaderInitFails (freshState validML) rfl (by decide) rfl⟩

/-- C6 counterexample: when the Reader's deinit fails but the generic
deinit succeeds, Deinitialize returns success — the Reader-step failure
is discarded, contradicting the claim that every failure from either
step is propagated. -/
theorem deinit_swallows_reader_failure :
    extReaderDeinitFails.reader_deinit_ok = false ∧
    (affile_sd_deinit extReaderDeinitFails
      (affile_sd_init cfg300 extAllOk (freshState validML)).2).1 = true := by
  decide

/-- C6 amended: Deinitialize deinitializes the Reader first (the Reader
is no longer initialized in the resulting state, whatever the outcome)
and then runs the generic source-driver deinitialization; its result is
exactly the generic step's result — a generic-step failure is
propagated, while the Reader's own deinit result is discarded. -/
theorem deinit_propagates_generic_failure (ext : Externals) (s : DriverState) :
    (affile_sd_deinit ext s).1 = ext.src_driver_deinit_ok ∧
    (affile_sd_deinit ext s).2.reader_inited = false := by
  cases hd : ext.src_driver_deinit_ok <;> simp [affile_sd_deinit, hd]

/-- C8 counterexample: for the path /proc/kmsg on a filesystem where the
stat check fails, construction under non-legacy compatibility still
classifies the path as the legacy kernel ring buffer by name, yielding
`follow_freq = 0` and the privileged kmsg opener — not the
`follow_freq = 1000` / regular-file opener the claim predicts for every
path whose stat check fails. -/
theorem stat_failure_kmsg_counterexample :
    fsAbsent "/proc/kmsg" = none ∧
    cfg_is_config_version_older cfg300 0x0300 = false ∧
    (affile_sd_new fsAbsent "/proc/kmsg" cfg300).file_reader_options.follow_freq = 0 ∧
    (affile_sd_new fsAbsent "/proc/kmsg" cfg300).file_opener = some FileOpener.prockmsg := by
  refine ⟨rfl, by decide, ?_, ?_⟩ <;>
    simp [affile_sd_new, affile_sd_new_instance, _is_device_node, _is_linux_proc_kmsg,
      _is_linux_dev_kmsg, fsAbsent, cfg_is_config_version_older, cfg300]

/-- C8 amended: for every path other than /proc/kmsg on which the
classification stat check fails, construction does not abort and the
path degrades to the regular-file classification: under non-legacy
compatibility the driver gets `follow_freq = 1000` and the regular-file
opener. -/
theorem stat_failure_defaults_to_regular (fs : FileSystem) (filename : String)
    (cfg : GlobalConfig)
    (hstat : fs filename = none)
    (hver : cfg_is_config_version_older cfg 0x0300 = false)
    (hk : filename ≠ "/proc/kmsg") :
    (affile_sd_new fs filename cfg).file_reader_options.follow_freq = 1000 ∧
    (affile_sd_new fs filename cfg).file_opener = some FileOpener.regularSourceFiles := by
  have hd : _is_device_node fs filename = false := by
    simp [_is_device_node, hstat]
  have hp : _is_linux_proc_kmsg filename = false := by
    simp [_is_linux_proc_kmsg, hk]
  simp [affile_sd_new, affile_sd_new_instance, hver, hd, hp]

/-- C8 amended, witnessed at an ordinary path on a filesystem where stat
fails. -/
theorem stat_failure_defaults_to_regular_witness :
    fsAbsent "/var/log/app.log" = none ∧
    cfg_is_config_version_older cfg300 0x0300 = false ∧
    "/var/log/app.log" ≠ "/proc/kmsg" ∧
    ((affile_sd_new fsAbsent "/var/log/app.log" cfg300).file_reader_options.follow_freq
       = 1000 ∧
     (affile_sd_new fsAbsent "/var/log/app.log" cfg300).file_opener
       = some FileOpener.regularSourceFiles) :=
  ⟨rfl, by decide, by decide,
    stat_failure_defaults_to_regular fsAbsent "/var/log/app.log" cfg300 rfl (by decide)
      (by decide)⟩

/-- C9: after a successful Initialize, the driver's persist-name query
returns exactly the persist name of the Reader constructed from the
driver's resolved identity (path, resolved reader options, opener); the
query returns the same value after a subsequent Deinitialize; and two
drivers with identical resolved configuration yield the same key. -/
theorem persist_name_stable (cfg : GlobalConfig) (ext ext2 ext3 : Externals)
    (s t : DriverState)
    (h1 : (affile_sd_init cfg ext s).1 = true)
    (h2 : (affile_sd_init cfg ext2 t).1 = true)
    (hf : s.driver.filename = t.driver.filename)
    (ho : s.driver.file_reader_options = t.driver.file_reader_options)
    (hop : s.driver.file_opener = t.driver.file_opener) :
    affile_sd_format_persist_name (affile_sd_init cfg ext s).2.driver =
      some (log_pipe_get_persist_name
        (file_reader_new s.driver.filename
          (file_reader_options_init s.driver.file_reader_options cfg)
          s.driver.file_opener)) ∧
    affile_sd_format_persist_name
        (affile_sd_deinit ext3 (affile_sd_init cfg ext s).2).2.driver =
      affile_sd_format_persist_name (affile_sd_init cfg ext s).2.driver ∧
    affile_sd_format_persist_name (affile_sd_init cfg ext s).2.driver =
      affile_sd_format_persist_name (affile_sd_init cfg ext2 t).2.driver := by
  cases hs : ext.src_driver_init_ok with
  | false => simp [affile_sd_init, hs] at h1
  | true =>
    cases hs2 : ext2.src_driver_init_ok with
    | false => simp [affile_sd_init, hs2] at h2
    | true =>
      cases hv : _are_multi_line_settings_invalid s.driver.file_reader_options.multiLine with
      | true => simp [affile_sd_init, hs, hv, file_reader_options_init] at h1
      | false =>
        have hvt :
            _are_multi_line_settings_invalid t.driver.file_reader_options.multiLine
              = false := by
          rw [← ho]; exact hv
        cases hd3 : ext3.src_driver_deinit_ok <;>
          simp [affile_sd_init, hs, hs2, hv, hvt, file_reader_options_init,
            affile_sd_deinit, affile_sd_format_persist_name, file_reader_new, hd3,
            hf, ho, hop]

/-- C9, witnessed on two identically configured drivers. -/
theorem persist_name_stable_witness :
    (affile_sd_init cfg300 extAllOk (freshState validML)).1 = true ∧
    ((affile_sd_init cfg300 extAllOk (freshState validML)).1 = true ∧
     (freshState validML).driver.filename = (freshState validML).driver.filename ∧
     (freshState validML).driver.file_reader_options
       = (freshState validML).driver.file_reader_options ∧
     (freshState validML).driver.file_opener = (freshState validML).driver.file_opener) ∧
    (affile_sd_format_persist_name
        (affile_sd_init cfg300 extAllOk (freshState validML)).2.driver =
      some (log_pipe_get_persist_name
        (file_reader_new (freshState validML).driver.filename
          (file_reader_options_init
            (freshState validML).driver.file_reader_options cfg300)
          (freshState validML).driver.file_opener)) ∧
     affile_sd_format_persist_name
        (affile_sd_deinit extAllOk
          (affile_sd_init cfg300 extAllOk (freshState validML)).2).2.driver =
      affile_sd_format_persist_name
        (affile_sd_init cfg300 extAllOk (freshState validML)).2.driver ∧
     affile_sd_format_persist_name
        (affile_sd_init cfg300 extAllOk (freshState validML)).2.driver =
      affile_sd_format_persist_name
        (affile_sd_init cfg300 extAllOk (freshState validML)).2.driver) :=
  ⟨by decide, ⟨by decide, rfl, rfl, rfl⟩,
    persist_name_stable cfg300 extAllOk extAllOk extAllOk
      (freshState validML) (freshState validML) (by decide) (by decide) rfl rfl rfl⟩

/-- C10: Free always releases the opener strategy, the path buffer, both
option structures and the generic driver state, and decrements the
Reader's reference count by one (a never-initialized driver has no
Reader, count 0, and the release is a safe no-op). -/
theorem free_releases_resources (s : DriverState) :
    (affile_sd_free s).opener_released = true ∧
    (affile_sd_free s).filename_released = true ∧
    (affile_sd_free s).reader_options_deinited = true ∧
    (affile_sd_free s).opener_options_deinited = true ∧
    (affile_sd_free s).src_driver_freed = true ∧
    readerRefCount (affile_sd_free s).reader_after_unref =
      readerRefCount s.driver.file_reader - 1 := by
  refine ⟨rfl, rfl, rfl, rfl, rfl, ?_⟩
  cases h : s.driver.file_reader with
  | none => simp [affile_sd_free, log_pipe_unref, readerRefCount, h]
  | some r =>
    by_cases hr : r.ref_cnt ≤ 1 <;>
      simp [affile_sd_free, log_pipe_unref, readerRefCount, h, hr]

end AFFile
